import Mathlib

/-!
Shallow embedding of the trial scheduling and response-classification core of
the tova continuous-performance-test engine.

Sources embedded here:
- `src/main/test-config.ts` : `normalizeToEven`
- `src/main/trial-sequence.ts` : `shuffleArray`, `generateTrialSequence`
- `src/main/response-tracker.ts` : `ResponseTracker`
- `src/main/trial-scheduler.ts` : `TrialScheduler` (start/stop/scheduleNextTrial/
  presentStimulus/complete, modelled as a state machine whose deferred
  `setTimeout` callbacks are explicit timer requests fired by a driver)
- `src/main/test-engine.ts` : orchestrator (`recordResponse`, `stopTest`)

Timestamps are nanosecond integers (`ℤ`, the code uses `bigint`); millisecond
arithmetic performed by the code in JavaScript numbers is modelled in `ℚ`.
The high-precision clock is modelled as a list of nanosecond timestamps that
operations consume in the order the code calls `getHighPrecisionTime()`.
-/

namespace Tova

/-- The two stimulus categories (`StimulusType` in `types.ts`). -/
inductive StimulusType where
  | target
  | nonTarget
deriving DecidableEq, Repr

/-- Test configuration (`TestConfig` in `types.ts`). All values are
millisecond quantities or trial counts, non-negative integers. -/
structure TestConfig where
  stimulusDurationMs : ℕ
  interstimulusIntervalMs : ℕ
  totalTrials : ℕ
  bufferMs : ℕ
deriving DecidableEq, Repr

/-- The `DEFAULT_TEST_CONFIG` of `types.ts`. -/
def DEFAULT_TEST_CONFIG : TestConfig :=
  { stimulusDurationMs := 100
    interstimulusIntervalMs := 2000
    totalTrials := 648
    bufferMs := 500 }

/-- Embeds `normalizeToEven` from `test-config.ts`: round an odd trial count up by 1. -/
def normalizeToEven (totalTrials : ℕ) : ℕ :=
  if totalTrials % 2 = 0 then totalTrials else totalTrials + 1

/-- Event types recorded during test execution (`TestEventType` in `types.ts`). -/
inductive TestEventType where
  | stimulusOnset
  | stimulusOffset
  | response
  | bufferStart
deriving DecidableEq, Repr

/-- An event in the append-only test log (`TestEvent` in `types.ts`).
The four response-only fields are `none` on non-response events. -/
structure TestEvent where
  trialIndex : ℤ
  stimulusType : StimulusType
  timestampNs : ℤ
  eventType : TestEventType
  responseCorrect : Option Bool := none
  responseTimeMs : Option ℚ := none
  responseCount : Option ℕ := none
  isAnticipatory : Option Bool := none
deriving DecidableEq, Repr

/-- A stimulus awaiting a response decision (`PendingResponse` in `types.ts`). -/
structure PendingResponse where
  trialIndex : ℤ
  stimulusType : StimulusType
  onsetTimestampNs : ℤ
  expectedResponse : Bool
deriving DecidableEq, Repr

/-- Result of `ResponseTracker.processResponse` (`ResponseResult`). -/
structure ResponseResult where
  trialIndex : ℤ
  stimulusType : StimulusType
  responseCorrect : Bool
  responseTimeMs : ℚ
  responseCount : ℕ
  isAnticipatory : Bool
  isCommissionError : Bool
deriving DecidableEq, Repr

/-- Elapsed milliseconds between a response timestamp and an onset timestamp,
`Number(responseTimestampNs - pr.onsetTimestampNs) / 1_000_000` in the code. -/
def elapsedMs (responseTimestampNs onsetTimestampNs : ℤ) : ℚ :=
  ((responseTimestampNs - onsetTimestampNs : ℤ) : ℚ) / 1000000

/-- The valid response window in milliseconds,
`config.stimulusDurationMs + config.interstimulusIntervalMs`. -/
def TestConfig.responseWindowMs (c : TestConfig) : ℚ :=
  (c.stimulusDurationMs : ℚ) + (c.interstimulusIntervalMs : ℚ)

/-- JavaScript `Array.prototype.findIndex` followed by `splice(idx, 1)`:
locate the first element satisfying `p` and return it together with the
list with that one element removed; `none` when no element satisfies `p`. -/
def findRemoveFirst {α : Type} (p : α → Bool) : List α → Option (α × List α)
  | [] => none
  | a :: rest =>
    if p a then some (a, rest)
    else
      match findRemoveFirst p rest with
      | none => none
      | some (m, rest') => some (m, a :: rest')

/-- State of `ResponseTracker` (`response-tracker.ts`): the pending-response
list (insertion order) and the per-trial response-count map, modelled as a
total function defaulting to 0 (`Map.get(...) || 0` in the code). -/
structure ResponseTracker where
  config : TestConfig
  anticipatoryThresholdMs : ℚ
  pendingResponses : List PendingResponse
  responseCountPerTrial : ℤ → ℕ

/-- The constructor default `anticipatoryThresholdMs = 150`. -/
def defaultAnticipatoryThresholdMs : ℚ := 150

/-- A fresh `ResponseTracker` built by `new ResponseTracker(config)`. -/
def ResponseTracker.mkNew (config : TestConfig) : ResponseTracker :=
  { config := config
    anticipatoryThresholdMs := defaultAnticipatoryThresholdMs
    pendingResponses := []
    responseCountPerTrial := fun _ => 0 }

/-- Embeds `ResponseTracker.getResponseCount`. -/
def ResponseTracker.getResponseCount (rt : ResponseTracker) (trialIndex : ℤ) : ℕ :=
  rt.responseCountPerTrial trialIndex

/-- Embeds `ResponseTracker.addPendingResponse`. -/
def ResponseTracker.addPendingResponse (rt : ResponseTracker) (data : PendingResponse) :
    ResponseTracker :=
  { rt with pendingResponses := rt.pendingResponses ++ [data] }

/-- Embeds `ResponseTracker.removePendingResponse`. -/
def ResponseTracker.removePendingResponse (rt : ResponseTracker) (trialIndex : ℤ) :
    ResponseTracker :=
  match findRemoveFirst (fun pr => pr.trialIndex == trialIndex) rt.pendingResponses with
  | none => rt
  | some (_, rest) => { rt with pendingResponses := rest }

/-- Embeds `ResponseTracker.clear`. -/
def ResponseTracker.clear (rt : ResponseTracker) : ResponseTracker :=
  { rt with pendingResponses := [], responseCountPerTrial := fun _ => 0 }

/-- Update the per-trial count map at one trial index (`Map.set`). -/
def setCount (m : ℤ → ℕ) (trialIndex : ℤ) (n : ℕ) : ℤ → ℕ :=
  fun i => if i = trialIndex then n else m i

/-- Embeds `ResponseTracker.processResponse` from `response-tracker.ts`.
Returns the classification (`none` models the `null` duplicate outcome)
together with the updated tracker state. -/
def ResponseTracker.processResponse (rt : ResponseTracker) (responseTimestampNs : ℤ)
    (actualResponse : Bool) (stimulusType : StimulusType) (trialIndex : ℤ) :
    Option ResponseResult × ResponseTracker :=
  let existingCount := rt.getResponseCount trialIndex
  if existingCount > 0 then
    (none,
      { rt with responseCountPerTrial :=
          setCount rt.responseCountPerTrial trialIndex (existingCount + 1) })
  else
    match findRemoveFirst
        (fun pr => elapsedMs responseTimestampNs pr.onsetTimestampNs
                     < rt.config.responseWindowMs)
        rt.pendingResponses with
    | none =>
      (some
        { trialIndex := trialIndex
          stimulusType := StimulusType.nonTarget
          responseCorrect := false
          responseTimeMs := 0
          responseCount := existingCount + 1
          isAnticipatory := false
          isCommissionError := true },
       { rt with responseCountPerTrial :=
           setCount rt.responseCountPerTrial trialIndex (existingCount + 1) })
    | some (pending, remaining) =>
      let responseTimeMs := elapsedMs responseTimestampNs pending.onsetTimestampNs
      let isAnticipatory := decide (responseTimeMs < rt.anticipatoryThresholdMs)
      let isCorrect := pending.expectedResponse == actualResponse
      (some
        { trialIndex := trialIndex
          stimulusType := stimulusType
          responseCorrect := isCorrect
          responseTimeMs := responseTimeMs
          responseCount := existingCount + 1
          isAnticipatory := isAnticipatory
          isCommissionError := false },
       { rt with
           pendingResponses := remaining
           responseCountPerTrial :=
             setCount rt.responseCountPerTrial trialIndex (existingCount + 1) })

/-- JavaScript `Math.round` on the non-negative rationals that appear in the
sequence generator: `round(q) = ⌊q + 1/2⌋`. -/
def mathRound (q : ℚ) : ℤ := ⌊q + 1 / 2⌋

/-- Swap the elements at positions `i` and `j`
(`[array[i], array[j]] = [array[j], array[i]]`). -/
def listSwap {α : Type} (l : List α) (i j : ℕ) : List α :=
  match l.get? i, l.get? j with
  | some a, some b => (l.set i b).set j a
  | _, _ => l

/-- The descending loop of the Fisher–Yates shuffle: perform the swaps for
indices `i, i-1, …, 1`, drawing `j = rand i % (i+1)` at index `i`.
`rand` models the stream of `Math.floor(Math.random() * (i + 1))` draws. -/
def shuffleSteps {α : Type} (rand : ℕ → ℕ) : ℕ → List α → List α
  | 0, l => l
  | i + 1, l => shuffleSteps rand i (listSwap l (i + 1) (rand (i + 1) % (i + 2)))

/-- Embeds `shuffleArray` from `trial-sequence.ts`: in-place Fisher–Yates shuffle,
with the random draws supplied by `rand`. -/
def shuffleArray {α : Type} (l : List α) (rand : ℕ → ℕ) : List α :=
  shuffleSteps rand (l.length - 1) l

/-- Embeds `generateTrialSequence` from `trial-sequence.ts`. The two random streams
feed the two independent half-shuffles. The thrown `Error` on a non-positive
trial count is modelled as `Except.error`. -/
def generateTrialSequence (totalTrials : ℕ) (rand1 rand2 : ℕ → ℕ) :
    Except String (List StimulusType) :=
  if totalTrials = 0 then
    Except.error "totalTrials must be a positive integer"
  else
    let normalizedTrials := normalizeToEven totalTrials
    let halfTrials := normalizedTrials / 2
    let firstHalfTargets := (mathRound ((halfTrials : ℚ) * (225 / 1000))).toNat
    let firstHalfNonTargets := halfTrials - firstHalfTargets
    let secondHalfTargets := (mathRound ((halfTrials : ℚ) * (775 / 1000))).toNat
    let secondHalfNonTargets := halfTrials - secondHalfTargets
    let firstHalf :=
      List.replicate firstHalfTargets StimulusType.target ++
        List.replicate firstHalfNonTargets StimulusType.nonTarget
    let secondHalf :=
      List.replicate secondHalfTargets StimulusType.target ++
        List.replicate secondHalfNonTargets StimulusType.nonTarget
    Except.ok (shuffleArray firstHalf rand1 ++ shuffleArray secondHalf rand2)

/-- Outward notifications pushed by the scheduler/orchestrator:
`stimulus-change` (one event) and `test-complete` (full log, start time,
elapsed time; the code stringifies the two timestamps for transport). -/
inductive Notif where
  | stimulusChange (event : TestEvent)
  | testComplete (events : List TestEvent) (startTimeNs : ℤ) (elapsedTimeNs : ℤ)
deriving DecidableEq, Repr

/-- The deferred `setTimeout` callbacks of `TrialScheduler`, as explicit
timer requests. `offsetCb` captures the `nextTrialStartTime` computed when
the offset timer was registered in `presentStimulus`. -/
inductive TimerCb where
  | presentCb
  | offsetCb (nextTrialStartTime : ℚ)
  | advanceCb
deriving DecidableEq, Repr

/-- A registered timer: requested delay plus its callback. -/
structure TimerReq where
  delayMs : ℚ
  cb : TimerCb
deriving DecidableEq, Repr

/-- State of `TrialScheduler` (`trial-scheduler.ts`), including the
`ResponseTracker` it holds a reference to. -/
structure TrialScheduler where
  config : TestConfig
  responseTracker : ResponseTracker
  testRunning : Bool
  testEvents : List TestEvent
  currentTrialIndex : ℕ
  currentStimulusType : StimulusType
  trialSequence : List StimulusType
  testStartTimeNs : ℤ

/-- A fresh `TrialScheduler` built by `new TrialScheduler(config, tracker, …)`. -/
def TrialScheduler.mkNew (config : TestConfig) (tracker : ResponseTracker) :
    TrialScheduler :=
  { config := config
    responseTracker := tracker
    testRunning := false
    testEvents := []
    currentTrialIndex := 0
    currentStimulusType := StimulusType.target
    trialSequence := []
    testStartTimeNs := 0 }

/-- Result of one synchronous scheduler step: updated state, remaining clock
stream, outward notifications emitted, and newly registered timers. -/
structure SchedOut where
  sched : TrialScheduler
  clock : List ℤ
  notifs : List Notif
  timers : List TimerReq

/-- A step that touches nothing (a deferred callback whose `testRunning`
guard failed). -/
def noopOut (s : TrialScheduler) (clock : List ℤ) : SchedOut :=
  { sched := s, clock := clock, notifs := [], timers := [] }

/-- Build the `TestEvent` of `emitStimulusChange`. -/
def mkStimulusEvent (trialIndex : ℤ) (st : StimulusType) (et : TestEventType)
    (timestampNs : ℤ) : TestEvent :=
  { trialIndex := trialIndex, stimulusType := st, timestampNs := timestampNs
    eventType := et }

/-- Embeds `TrialScheduler.addEvent`. -/
def TrialScheduler.addEvent (s : TrialScheduler) (event : TestEvent) : TrialScheduler :=
  { s with testEvents := s.testEvents ++ [event] }

/-- Embeds `TrialScheduler.isRunning`. -/
def TrialScheduler.isRunning (s : TrialScheduler) : Bool :=
  s.testRunning

/-- Embeds `TrialScheduler.complete`: set `testRunning = false` and emit the
`test-complete` notification carrying the full accumulated event log.
Consumes one clock timestamp (`getHighPrecisionTime()` for the end time). -/
def TrialScheduler.complete (s : TrialScheduler) (clock : List ℤ) : SchedOut :=
  let s' := { s with testRunning := false }
  let endTimeNs := clock.headD 0
  { sched := s'
    clock := clock.tail
    notifs := [Notif.testComplete s'.testEvents s'.testStartTimeNs
                 (endTimeNs - s'.testStartTimeNs)]
    timers := [] }

/-- Embeds `TrialScheduler.stop`: hard interrupt — clear the running flag and
finalize immediately via `complete`, with no running-state check. -/
def TrialScheduler.stop (s : TrialScheduler) (clock : List ℤ) : SchedOut :=
  TrialScheduler.complete { s with testRunning := false } clock

/-- Embeds `TrialScheduler.presentStimulus`: emit the onset event, register the
pending response with the measured onset timestamp, and schedule the offset
callback with a drift-corrected delay. Consumes three clock timestamps
(event timestamp, pending onset timestamp, "now" for the delay). -/
def TrialScheduler.presentStimulus (s : TrialScheduler) (clock : List ℤ) : SchedOut :=
  if s.testRunning = false ∨ s.currentTrialIndex ≥ s.config.totalTrials then
    s.complete clock
  else
    let isTarget :=
      s.trialSequence.getD s.currentTrialIndex StimulusType.nonTarget
        == StimulusType.target
    let stimType := if isTarget then StimulusType.target else StimulusType.nonTarget
    let ev := mkStimulusEvent (s.currentTrialIndex : ℤ) stimType
      TestEventType.stimulusOnset (clock.headD 0)
    let clock1 := clock.tail
    let onsetTimestampNs := clock1.headD 0
    let clock2 := clock1.tail
    let s1 : TrialScheduler :=
      { s with
          currentStimulusType := stimType
          testEvents := s.testEvents ++ [ev]
          responseTracker := s.responseTracker.addPendingResponse
            { trialIndex := (s.currentTrialIndex : ℤ)
              stimulusType := stimType
              onsetTimestampNs := onsetTimestampNs
              expectedResponse := isTarget } }
    let nowMs : ℚ := ((clock2.headD 0 - s.testStartTimeNs : ℤ) : ℚ) / 1000000
    let clock3 := clock2.tail
    let trialStartTime : ℚ := (s.config.bufferMs : ℚ) +
      (s.currentTrialIndex : ℚ) *
        ((s.config.stimulusDurationMs : ℚ) + (s.config.interstimulusIntervalMs : ℚ))
    let stimulusEndTime := trialStartTime + (s.config.stimulusDurationMs : ℚ)
    let nextTrialStartTime := stimulusEndTime + (s.config.interstimulusIntervalMs : ℚ)
    let offsetDelay := max 0 (stimulusEndTime - nowMs)
    { sched := s1
      clock := clock3
      notifs := [Notif.stimulusChange ev]
      timers := [{ delayMs := offsetDelay, cb := TimerCb.offsetCb nextTrialStartTime }] }

/-- Embeds `TrialScheduler.scheduleNextTrial`: drift-corrected scheduling of the
next stimulus (or completion when the trial count is exhausted). -/
def TrialScheduler.scheduleNextTrial (s : TrialScheduler) (clock : List ℤ) : SchedOut :=
  if s.testRunning = false ∨ s.currentTrialIndex ≥ s.config.totalTrials then
    s.complete clock
  else if s.currentTrialIndex = 0 then
    let ev := mkStimulusEvent (-1) StimulusType.target TestEventType.bufferStart
      (clock.headD 0)
    let clock1 := clock.tail
    let s1 := { s with testEvents := s.testEvents ++ [ev] }
    let bufferEndTime : ℤ := s.testStartTimeNs + (s.config.bufferMs : ℤ) * 1000000
    let nowNs := clock1.headD 0
    let clock2 := clock1.tail
    let delayMs : ℚ := max 0 (((bufferEndTime - nowNs : ℤ) : ℚ) / 1000000)
    { sched := s1
      clock := clock2
      notifs := [Notif.stimulusChange ev]
      timers := [{ delayMs := delayMs, cb := TimerCb.presentCb }] }
  else
    let trialStartTime : ℤ := s.testStartTimeNs + (s.config.bufferMs : ℤ) * 1000000 +
      ((s.currentTrialIndex *
          (s.config.stimulusDurationMs + s.config.interstimulusIntervalMs) : ℕ) : ℤ)
        * 1000000
    let nowNs := clock.headD 0
    let clock1 := clock.tail
    let delayMs : ℚ := max 0 (((trialStartTime - nowNs : ℤ) : ℚ) / 1000000)
    { sched := s
      clock := clock1
      notifs := []
      timers := [{ delayMs := delayMs, cb := TimerCb.presentCb }] }

/-- Embeds `TrialScheduler.start`: no-op when already running; raise on a sequence
whose length differs from `normalizeToEven(config.totalTrials)`; otherwise
reset all per-run state, clear the tracker and advance. The thrown `Error`
is modelled as `Except.error`. -/
def TrialScheduler.start (s : TrialScheduler) (sequence : List StimulusType)
    (startTimeNs : ℤ) (clock : List ℤ) : Except String SchedOut :=
  if s.testRunning then
    Except.ok (noopOut s clock)
  else
    let expectedTrials := normalizeToEven s.config.totalTrials
    if sequence.length ≠ expectedTrials then
      Except.error "Sequence length does not match expected trials"
    else
      let s1 : TrialScheduler :=
        { s with
            testRunning := true
            testEvents := []
            currentTrialIndex := 0
            currentStimulusType := StimulusType.target
            trialSequence := sequence
            testStartTimeNs := startTimeNs
            responseTracker := s.responseTracker.clear }
      Except.ok (s1.scheduleNextTrial clock)

/-- Fire one deferred callback. Every callback first checks the running
flag and becomes a no-op when it is cleared. -/
def TrialScheduler.fireTimer (s : TrialScheduler) (cb : TimerCb) (clock : List ℤ) :
    SchedOut :=
  match cb with
  | TimerCb.presentCb =>
    if s.testRunning = false then noopOut s clock
    else s.presentStimulus clock
  | TimerCb.offsetCb nextTrialStartTime =>
    if s.testRunning = false then noopOut s clock
    else
      let currentNow : ℚ := ((clock.headD 0 - s.testStartTimeNs : ℤ) : ℚ) / 1000000
      let clock1 := clock.tail
      let ev := mkStimulusEvent (s.currentTrialIndex : ℤ) s.currentStimulusType
        TestEventType.stimulusOffset (clock1.headD 0)
      let clock2 := clock1.tail
      let s1 := { s with testEvents := s.testEvents ++ [ev] }
      let remainingDelay := max 0 (nextTrialStartTime - currentNow)
      { sched := s1
        clock := clock2
        notifs := [Notif.stimulusChange ev]
        timers := [{ delayMs := remainingDelay, cb := TimerCb.advanceCb }] }
  | TimerCb.advanceCb =>
    if s.testRunning = false then noopOut s clock
    else
      let s1 := { s with currentTrialIndex := s.currentTrialIndex + 1 }
      s1.scheduleNextTrial clock

/-- Event-loop driver: repeatedly fire the queue of registered timers
(first registered first), accumulating notifications, until no timer
remains or the fuel runs out. -/
def drive : ℕ → TrialScheduler → List TimerReq → List ℤ →
    TrialScheduler × List Notif
  | 0, s, _, _ => (s, [])
  | _ + 1, s, [], _ => (s, [])
  | fuel + 1, s, t :: rest, clock =>
    let out := s.fireTimer t.cb clock
    let next := drive fuel out.sched (rest ++ out.timers) out.clock
    (next.1, out.notifs ++ next.2)

/-- Count the stimulus-onset events in a log. -/
def countOnsets (events : List TestEvent) : ℕ :=
  events.countP (fun e => e.eventType == TestEventType.stimulusOnset)

/-- The degenerate "stray response" event the orchestrator synthesizes when
the pending collection is empty (`trialIndex = -1`). -/
def strayResponseEvent (responseTimestampNs : ℤ) : TestEvent :=
  { trialIndex := -1
    stimulusType := StimulusType.nonTarget
    timestampNs := responseTimestampNs
    eventType := TestEventType.response
    responseCorrect := some false
    responseTimeMs := some 0
    responseCount := some 1
    isAnticipatory := some false }

/-- The event the orchestrator builds for a commission-error outcome
(`trialIndex = -1`, the tracker's `responseCount` carried over). -/
def commissionResponseEvent (responseTimestampNs : ℤ) (responseCount : ℕ) : TestEvent :=
  { trialIndex := -1
    stimulusType := StimulusType.nonTarget
    timestampNs := responseTimestampNs
    eventType := TestEventType.response
    responseCorrect := some false
    responseTimeMs := some 0
    responseCount := some responseCount
    isAnticipatory := some false }

/-- The event the orchestrator builds for a valid (normal) outcome. -/
def validResponseEvent (responseTimestampNs : ℤ) (result : ResponseResult) : TestEvent :=
  { trialIndex := result.trialIndex
    stimulusType := result.stimulusType
    timestampNs := responseTimestampNs
    eventType := TestEventType.response
    responseCorrect := some result.responseCorrect
    responseTimeMs := some result.responseTimeMs
    responseCount := some result.responseCount
    isAnticipatory := some result.isAnticipatory }

/-- Orchestrator `recordResponse` from `test-engine.ts` (the active-run
path: scheduler and tracker exist). Returns the updated scheduler (whose
tracker field is the updated tracker) and the outward `stimulus-change`
notifications sent to the renderer sink. -/
def recordResponse (s : TrialScheduler) (responseTimestampNs : ℤ)
    (responded : Bool) : TrialScheduler × List Notif :=
  match s.responseTracker.pendingResponses.getLast? with
  | none =>
    (s.addEvent (strayResponseEvent responseTimestampNs), [])
  | some pending =>
    let out := s.responseTracker.processResponse responseTimestampNs responded
      pending.stimulusType pending.trialIndex
    let s1 := { s with responseTracker := out.2 }
    match out.1 with
    | none => (s1, [])
    | some result =>
      if result.isCommissionError then
        (s1.addEvent (commissionResponseEvent responseTimestampNs result.responseCount),
         [])
      else
        (s1.addEvent (validResponseEvent responseTimestampNs result),
         [Notif.stimulusChange (validResponseEvent responseTimestampNs result)])

/-- Orchestrator `stopTest` from `test-engine.ts`: returns `false` without
calling `stop()` when no scheduler is running; otherwise stops the
scheduler, discards the references and returns `true`. -/
def stopTest (schedulerRef : Option TrialScheduler) (clock : List ℤ) :
    Bool × Option TrialScheduler × List Notif :=
  match schedulerRef with
  | none => (false, none, [])
  | some s =>
    if s.isRunning then
      (true, none, (s.stop clock).notifs)
    else
      (false, some s, [])

/-- A configuration with a stimulus duration exceeding the interstimulus
interval (the regression configuration of the response-window fix). -/
def cfgLong : TestConfig :=
  { stimulusDurationMs := 3000
    interstimulusIntervalMs := 1000
    totalTrials := 648
    bufferMs := 500 }

/-- Pending entry for trial 0, a target with onset at 0 ns. -/
def pendTrial0 : PendingResponse :=
  { trialIndex := 0, stimulusType := StimulusType.target
    onsetTimestampNs := 0, expectedResponse := true }

/-- Tracker holding the single pending entry `pendTrial0`. -/
def rtOnePending : ResponseTracker :=
  { config := cfgLong
    anticipatoryThresholdMs := defaultAnticipatoryThresholdMs
    pendingResponses := [pendTrial0]
    responseCountPerTrial := fun _ => 0 }

/-- Pending entry for trial 5, a non-target with onset at 0 ns. -/
def pendTrial5 : PendingResponse :=
  { trialIndex := 5, stimulusType := StimulusType.nonTarget
    onsetTimestampNs := 0, expectedResponse := false }

/-- Pending entry for trial 6, a target with onset 1 s after trial 5's. -/
def pendTrial6 : PendingResponse :=
  { trialIndex := 6, stimulusType := StimulusType.target
    onsetTimestampNs := 1000000000, expectedResponse := true }

/-- Tracker holding pending entries for trials 5 and 6, both unanswered. -/
def rtTwoPending : ResponseTracker :=
  { config := cfgLong
    anticipatoryThresholdMs := defaultAnticipatoryThresholdMs
    pendingResponses := [pendTrial5, pendTrial6]
    responseCountPerTrial := fun _ => 0 }

/-- Scheduler whose tracker is `rtTwoPending`. -/
def schedTwoPending : TrialScheduler :=
  TrialScheduler.mkNew cfgLong rtTwoPending

/-- Scheduler whose tracker is `rtOnePending`. -/
def schedOnePending : TrialScheduler :=
  TrialScheduler.mkNew cfgLong rtOnePending

/-- A configuration with an odd `totalTrials`. -/
def cfgOdd : TestConfig :=
  { stimulusDurationMs := 3000
    interstimulusIntervalMs := 1000
    totalTrials := 1
    bufferMs := 500 }

/-- Fresh scheduler for `cfgOdd`, not yet started. -/
def schedOdd : TrialScheduler :=
  TrialScheduler.mkNew cfgOdd (ResponseTracker.mkNew cfgOdd)

/-- A configuration with `totalTrials = 2` (even). -/
def cfgTwo : TestConfig :=
  { stimulusDurationMs := 3000
    interstimulusIntervalMs := 1000
    totalTrials := 2
    bufferMs := 500 }

/-- Fresh scheduler for `cfgTwo`, not yet started. -/
def schedTwo : TrialScheduler :=
  TrialScheduler.mkNew cfgTwo (ResponseTracker.mkNew cfgTwo)

/-! ### Helper lemmas -/

theorem findRemoveFirst_eq_none {α : Type} (p : α → Bool) (l : List α) :
    findRemoveFirst p l = none ↔ ∀ a ∈ l, p a = false := by
  induction l with
  | nil => simp [findRemoveFirst]
  | cons a rest ih =>
    by_cases h : p a
    · simp [findRemoveFirst, h]
    · have h' : p a = false := by simpa using h
      cases hr : findRemoveFirst p rest with
      | none =>
        simp only [findRemoveFirst, h', Bool.false_eq_true, if_false, hr,
          List.mem_cons, true_iff]
        intro b hb
        rcases hb with hb | hb
        · exact hb ▸ h'
        · exact (ih.mp hr) b hb
      | some pair =>
        simp only [findRemoveFirst, h', Bool.false_eq_true, if_false, hr,
          List.mem_cons]
        constructor
        · intro hcontra
          exact Option.noConfusion hcontra
        · intro hall
          have h2 := ih.mpr (fun b hb => hall b (Or.inr hb))
          rw [h2] at hr
          exact Option.noConfusion hr

theorem findRemoveFirst_some_mem {α : Type} (p : α → Bool) (l : List α)
    (m : α) (rest : List α) (h : findRemoveFirst p l = some (m, rest)) :
    m ∈ l ∧ p m = true := by
  induction l generalizing rest with
  | nil => simp [findRemoveFirst] at h
  | cons a tl ih =>
    by_cases ha : p a
    · simp only [findRemoveFirst, ha, if_true] at h
      obtain ⟨hm, hrest⟩ : a = m ∧ tl = rest := by simpa using h
      subst hm
      exact ⟨List.mem_cons_self a tl, ha⟩
    · have ha' : p a = false := by simpa using ha
      simp only [findRemoveFirst, ha', Bool.false_eq_true, if_false] at h
      cases hr : findRemoveFirst p tl with
      | none => rw [hr] at h; exact Option.noConfusion h
      | some pair =>
        obtain ⟨m', rest'⟩ := pair
        rw [hr] at h
        obtain ⟨hm, hrest⟩ : m' = m ∧ a :: rest' = rest := by simpa using h
        subst hm
        obtain ⟨hmem, hp⟩ := ih rest' hr
        exact ⟨List.mem_cons_of_mem a hmem, hp⟩

theorem setCount_self (m : ℤ → ℕ) (trialIndex : ℤ) (n : ℕ) :
    setCount m trialIndex n trialIndex = n := by
  simp [setCount]

theorem findRemoveFirst_cons_pos {α : Type} (p : α → Bool) (a : α) (l : List α)
    (h : p a = true) : findRemoveFirst p (a :: l) = some (a, l) := by
  simp [findRemoveFirst, h]

/-- Equation lemma for the matched branch of `processResponse`. -/
theorem processResponse_matched_eq (rt : ResponseTracker) (ts : ℤ) (ar : Bool)
    (st : StimulusType) (ti : ℤ) (m : PendingResponse) (rest : List PendingResponse)
    (h0 : rt.getResponseCount ti = 0)
    (hfind : findRemoveFirst
      (fun pr => decide (elapsedMs ts pr.onsetTimestampNs < rt.config.responseWindowMs))
      rt.pendingResponses = some (m, rest)) :
    rt.processResponse ts ar st ti =
      (some
        { trialIndex := ti
          stimulusType := st
          responseCorrect := m.expectedResponse == ar
          responseTimeMs := elapsedMs ts m.onsetTimestampNs
          responseCount := 1
          isAnticipatory :=
            decide (elapsedMs ts m.onsetTimestampNs < rt.anticipatoryThresholdMs)
          isCommissionError := false },
       { rt with
           pendingResponses := rest
           responseCountPerTrial := setCount rt.responseCountPerTrial ti 1 }) := by
  unfold ResponseTracker.processResponse
  simp only [h0, gt_iff_lt, lt_self_iff_false, if_false, hfind]

/-- Equation lemma for the commission-error branch of `processResponse`. -/
theorem processResponse_commission_eq (rt : ResponseTracker) (ts : ℤ) (ar : Bool)
    (st : StimulusType) (ti : ℤ)
    (h0 : rt.getResponseCount ti = 0)
    (hfind : findRemoveFirst
      (fun pr => decide (elapsedMs ts pr.onsetTimestampNs < rt.config.responseWindowMs))
      rt.pendingResponses = none) :
    rt.processResponse ts ar st ti =
      (some
        { trialIndex := ti
          stimulusType := StimulusType.nonTarget
          responseCorrect := false
          responseTimeMs := 0
          responseCount := 1
          isAnticipatory := false
          isCommissionError := true },
       { rt with
           responseCountPerTrial := setCount rt.responseCountPerTrial ti 1 }) := by
  unfold ResponseTracker.processResponse
  simp only [h0, gt_iff_lt, lt_self_iff_false, if_false, hfind]

/-! ### C1: full response window -/

/-- C1: for a response with no prior response recorded for the trial, the
valid response window is `stimulusDurationMs + interstimulusIntervalMs`
milliseconds measured from the matched pending entry's onset: the call
returns a classification that is a non-commission-error exactly when some
pending entry's elapsed time since onset is strictly inside that window,
and a matched (valid) result's `responseTimeMs` is the elapsed time of
such an in-window pending entry. -/
theorem processResponse_full_window (rt : ResponseTracker) (ts : ℤ) (ar : Bool)
    (st : StimulusType) (ti : ℤ) (h : rt.getResponseCount ti = 0) :
    ∃ r, (rt.processResponse ts ar st ti).1 = some r ∧
      (r.isCommissionError = false ↔
        ∃ pr ∈ rt.pendingResponses,
          elapsedMs ts pr.onsetTimestampNs < rt.config.responseWindowMs) ∧
      (r.isCommissionError = false →
        ∃ pr ∈ rt.pendingResponses,
          elapsedMs ts pr.onsetTimestampNs < rt.config.responseWindowMs ∧
            r.responseTimeMs = elapsedMs ts pr.onsetTimestampNs) := by
  unfold ResponseTracker.processResponse
  simp only [h, gt_iff_lt, lt_self_iff_false, if_false]
  cases hfind : findRemoveFirst
      (fun pr => decide (elapsedMs ts pr.onsetTimestampNs < rt.config.responseWindowMs))
      rt.pendingResponses with
  | none =>
    refine ⟨_, rfl, ?_, ?_⟩
    · simp only [Bool.true_eq_false, false_iff]
      rintro ⟨pr, hmem, hlt⟩
      have := (findRemoveFirst_eq_none _ _).mp hfind pr hmem
      simp only [decide_eq_false_iff_not] at this
      exact this hlt
    · intro hfalse
      exact absurd hfalse (by simp)
  | some pair =>
    obtain ⟨m, rest⟩ := pair
    obtain ⟨hmem, hp⟩ := findRemoveFirst_some_mem _ _ _ _ hfind
    simp only [decide_eq_true_eq] at hp
    refine ⟨_, rfl, ?_, ?_⟩
    · simpa using ⟨m, hmem, hp⟩
    · intro _
      exact ⟨m, hmem, hp, rfl⟩

/-- Witness for C1: with `stimulusDurationMs = 3000` and
`interstimulusIntervalMs = 1000`, a response arriving 3500 ms after onset
of a still-pending trial is classified as valid (not a commission error). -/
theorem processResponse_full_window_witness :
    ∃ r, (rtOnePending.processResponse 3500000000 true StimulusType.target 0).1
        = some r ∧ r.isCommissionError = false := by
  obtain ⟨r, hr, hiff, _⟩ :=
    processResponse_full_window rtOnePending 3500000000 true StimulusType.target 0 rfl
  refine ⟨r, hr, hiff.mpr ⟨pendTrial0, ?_, ?_⟩⟩
  · simp [rtOnePending]
  · norm_num [elapsedMs, pendTrial0, TestConfig.responseWindowMs, rtOnePending, cfgLong]

/-! ### C5: duplicate responses -/

/-- C5: calling `processResponse` twice for the same `trialIndex` — with no
prior response and a pending entry inside the response window on the first
call — returns a normal (non-null, non-commission) classification on the
first call and `null` on the second, and after the second call the
per-trial response count for that trial index is 2. -/
theorem processResponse_duplicate (rt : ResponseTracker) (ts1 ts2 : ℤ)
    (ar1 ar2 : Bool) (st1 st2 : StimulusType) (ti : ℤ)
    (h0 : rt.getResponseCount ti = 0)
    (hw : ∃ pr ∈ rt.pendingResponses,
      elapsedMs ts1 pr.onsetTimestampNs < rt.config.responseWindowMs) :
    (∃ r, (rt.processResponse ts1 ar1 st1 ti).1 = some r ∧
      r.isCommissionError = false) ∧
    ((rt.processResponse ts1 ar1 st1 ti).2.processResponse ts2 ar2 st2 ti).1 = none ∧
    ResponseTracker.getResponseCount
      ((rt.processResponse ts1 ar1 st1 ti).2.processResponse ts2 ar2 st2 ti).2 ti
      = 2 := by
  obtain ⟨pr0, hmem, hlt⟩ := hw
  cases hfind : findRemoveFirst
      (fun pr => decide (elapsedMs ts1 pr.onsetTimestampNs < rt.config.responseWindowMs))
      rt.pendingResponses with
  | none =>
    have := (findRemoveFirst_eq_none _ _).mp hfind pr0 hmem
    simp only [decide_eq_false_iff_not] at this
    exact absurd hlt this
  | some pair =>
    obtain ⟨m, rest⟩ := pair
    have hfirst := processResponse_matched_eq rt ts1 ar1 st1 ti m rest h0 hfind
    refine ⟨⟨_, by rw [hfirst], rfl⟩, ?_, ?_⟩
    · rw [hfirst]
      unfold ResponseTracker.processResponse
      simp [ResponseTracker.getResponseCount, setCount_self]
    · rw [hfirst]
      unfold ResponseTracker.processResponse
      simp [ResponseTracker.getResponseCount, setCount_self, setCount]

/-- Witness for C5: a first response to the pending trial 0 at 500 ms is a
normal classification, a second response for the same trial returns `null`,
and the per-trial count reaches 2. -/
theorem processResponse_duplicate_witness :
    (∃ r, (rtOnePending.processResponse 500000000 true StimulusType.target 0).1
        = some r ∧ r.isCommissionError = false) ∧
    ((rtOnePending.processResponse 500000000 true
        StimulusType.target 0).2.processResponse 600000000 true
        StimulusType.target 0).1 = none ∧
    ResponseTracker.getResponseCount
      ((rtOnePending.processResponse 500000000 true
        StimulusType.target 0).2.processResponse 600000000 true
        StimulusType.target 0).2 0 = 2 := by
  refine processResponse_duplicate rtOnePending 500000000 600000000 true true
    StimulusType.target StimulusType.target 0 rfl ⟨pendTrial0, ?_, ?_⟩
  · simp [rtOnePending]
  · norm_num [elapsedMs, pendTrial0, TestConfig.responseWindowMs, rtOnePending, cfgLong]

/-! ### C7: anticipatory threshold -/

/-- C7: for every matched (non-commission) response, `isAnticipatory` is
true exactly when `responseTimeMs` is strictly below the anticipatory
threshold (the strict `<` boundary, 150 ms by default). -/
theorem processResponse_anticipatory_boundary (rt : ResponseTracker) (ts : ℤ)
    (ar : Bool) (st : StimulusType) (ti : ℤ) (r : ResponseResult)
    (h : (rt.processResponse ts ar st ti).1 = some r)
    (hc : r.isCommissionError = false) :
    r.isAnticipatory = decide (r.responseTimeMs < rt.anticipatoryThresholdMs) := by
  unfold ResponseTracker.processResponse at h
  by_cases hcount : rt.getResponseCount ti > 0
  · simp only [hcount, if_true] at h
    exact Option.noConfusion h
  · simp only [hcount, if_false] at h
    cases hfind : findRemoveFirst
        (fun pr => decide (elapsedMs ts pr.onsetTimestampNs < rt.config.responseWindowMs))
        rt.pendingResponses with
    | none =>
      rw [hfind] at h
      obtain rfl := Option.some.inj h
      simp at hc
    | some pair =>
      obtain ⟨m, rest⟩ := pair
      rw [hfind] at h
      obtain rfl := Option.some.inj h
      rfl

/-- Witness for C7: with the default 150 ms threshold, a response at exactly
149.999 ms is anticipatory and a response at exactly 150 ms is not. -/
theorem processResponse_anticipatory_boundary_witness :
    (∃ r, (rtOnePending.processResponse 149999000 true StimulusType.target 0).1
        = some r ∧ r.responseTimeMs = 149999 / 1000 ∧ r.isAnticipatory = true) ∧
    (∃ r, (rtOnePending.processResponse 150000000 true StimulusType.target 0).1
        = some r ∧ r.responseTimeMs = 150 ∧ r.isAnticipatory = false) := by
  have hp1 : (fun pr : PendingResponse =>
      decide (elapsedMs 149999000 pr.onsetTimestampNs
        < rtOnePending.config.responseWindowMs)) pendTrial0 = true := by
    simp only [decide_eq_true_eq]
    norm_num [elapsedMs, pendTrial0, TestConfig.responseWindowMs, rtOnePending, cfgLong]
  have hp2 : (fun pr : PendingResponse =>
      decide (elapsedMs 150000000 pr.onsetTimestampNs
        < rtOnePending.config.responseWindowMs)) pendTrial0 = true := by
    simp only [decide_eq_true_eq]
    norm_num [elapsedMs, pendTrial0, TestConfig.responseWindowMs, rtOnePending, cfgLong]
  have h1 := processResponse_matched_eq rtOnePending 149999000 true
    StimulusType.target 0 pendTrial0 [] rfl
    (findRemoveFirst_cons_pos _ pendTrial0 [] hp1)
  have h2 := processResponse_matched_eq rtOnePending 150000000 true
    StimulusType.target 0 pendTrial0 [] rfl
    (findRemoveFirst_cons_pos _ pendTrial0 [] hp2)
  have h1' := congrArg Prod.fst h1
  have h2' := congrArg Prod.fst h2
  have e1 := processResponse_anticipatory_boundary rtOnePending 149999000 true
    StimulusType.target 0 _ h1' rfl
  have e2 := processResponse_anticipatory_boundary rtOnePending 150000000 true
    StimulusType.target 0 _ h2' rfl
  refine ⟨⟨_, h1', ?_, ?_⟩, ⟨_, h2', ?_, ?_⟩⟩
  · norm_num [elapsedMs, pendTrial0]
  · rw [e1]
    simp only [decide_eq_true_eq]
    norm_num [elapsedMs, pendTrial0, rtOnePending, defaultAnticipatoryThresholdMs]
  · norm_num [elapsedMs, pendTrial0]
  · rw [e2]
    simp only [decide_eq_false_iff_not]
    norm_num [elapsedMs, pendTrial0, rtOnePending, defaultAnticipatoryThresholdMs]

/-! ### Orchestrator equation lemma -/

theorem recordResponse_some_eq (s : TrialScheduler) (ts : ℤ) (responded : Bool)
    (pending : PendingResponse) (r : ResponseResult) (rt' : ResponseTracker)
    (hlast : s.responseTracker.pendingResponses.getLast? = some pending)
    (hproc : s.responseTracker.processResponse ts responded
      pending.stimulusType pending.trialIndex = (some r, rt')) :
    recordResponse s ts responded =
      (if r.isCommissionError then
        (TrialScheduler.addEvent { s with responseTracker := rt' }
          (commissionResponseEvent ts r.responseCount), [])
      else
        (TrialScheduler.addEvent { s with responseTracker := rt' }
          (validResponseEvent ts r),
         [Notif.stimulusChange (validResponseEvent ts r)])) := by
  unfold recordResponse
  rw [hlast]
  simp only [hproc]

/-! ### C2: matching with two in-window pending entries -/

/-- C2 evaluated on the code at the failing input: with pending entries for
trial 5 (non-target, onset 0 ns) and trial 6 (target, onset 1 s), both
still inside the 4000 ms response window, a response at 1.5 s labelled with
trial 6's identity is nevertheless matched internally to trial 5: the
emitted response event carries trial 6's `trialIndex` and `stimulusType`,
but its `responseTimeMs` is 1500 ms (measured from trial 5's onset, not the
500 ms elapsed since trial 6's onset), its `responseCorrect` is `false`
(judged against trial 5's `expectedResponse`, although trial 6 expected a
response), and trial 5's pending entry — not trial 6's — is removed. -/
theorem recordResponse_two_in_window_eval :
    elapsedMs 1500000000 pendTrial5.onsetTimestampNs < cfgLong.responseWindowMs ∧
    elapsedMs 1500000000 pendTrial6.onsetTimestampNs < cfgLong.responseWindowMs ∧
    (∃ e, (recordResponse schedTwoPending 1500000000 true).1.testEvents = [e] ∧
      e.trialIndex = 6 ∧ e.stimulusType = StimulusType.target ∧
      e.responseTimeMs = some (elapsedMs 1500000000 pendTrial5.onsetTimestampNs) ∧
      e.responseTimeMs = some 1500 ∧
      e.responseCorrect = some false) ∧
    (recordResponse schedTwoPending 1500000000 true).1.responseTracker.pendingResponses
      = [pendTrial6] ∧
    elapsedMs 1500000000 pendTrial6.onsetTimestampNs = 500 ∧
    pendTrial6.expectedResponse = true := by
  have hw5 : elapsedMs 1500000000 pendTrial5.onsetTimestampNs
      < cfgLong.responseWindowMs := by
    norm_num [elapsedMs, pendTrial5, TestConfig.responseWindowMs, cfgLong]
  have hw6 : elapsedMs 1500000000 pendTrial6.onsetTimestampNs
      < cfgLong.responseWindowMs := by
    norm_num [elapsedMs, pendTrial6, TestConfig.responseWindowMs, cfgLong]
  have hp5 : (fun pr : PendingResponse =>
      decide (elapsedMs 1500000000 pr.onsetTimestampNs
        < rtTwoPending.config.responseWindowMs)) pendTrial5 = true := by
    simp only [decide_eq_true_eq]
    exact hw5
  have hfind := findRemoveFirst_cons_pos
    (fun pr : PendingResponse =>
      decide (elapsedMs 1500000000 pr.onsetTimestampNs
        < rtTwoPending.config.responseWindowMs)) pendTrial5 [pendTrial6] hp5
  have hproc := processResponse_matched_eq rtTwoPending 1500000000 true
    pendTrial6.stimulusType pendTrial6.trialIndex pendTrial5 [pendTrial6] rfl hfind
  have heq := recordResponse_some_eq schedTwoPending 1500000000 true pendTrial6
    _ _ rfl hproc
  rw [if_neg (by simp)] at heq
  refine ⟨hw5, hw6,
    ⟨validResponseEvent 1500000000
      { trialIndex := pendTrial6.trialIndex
        stimulusType := pendTrial6.stimulusType
        responseCorrect := pendTrial5.expectedResponse == true
        responseTimeMs := elapsedMs 1500000000 pendTrial5.onsetTimestampNs
        responseCount := 1
        isAnticipatory := decide (elapsedMs 1500000000 pendTrial5.onsetTimestampNs
          < rtTwoPending.anticipatoryThresholdMs)
        isCommissionError := false },
      ?_, rfl, rfl, rfl, ?_, rfl⟩, ?_, ?_, rfl⟩
  · rw [heq]
    rfl
  · simp only [validResponseEvent, Option.some.injEq]
    norm_num [elapsedMs, pendTrial5]
  · rw [heq]
    rfl
  · norm_num [elapsedMs, pendTrial6]

/-! ### C9: appending and forwarding response events -/

/-- C9 counterexample: a response classified as a commission error (a
non-null outcome) is appended to the scheduler's event log but produces no
outward stimulus-change notification, refuting the claim that every
non-null outcome is forwarded outward. -/
theorem recordResponse_commission_not_forwarded :
    (∃ r, (rtOnePending.processResponse 5000000000 true
      pendTrial0.stimulusType pendTrial0.trialIndex).1 = some r ∧
      r.isCommissionError = true) ∧
    (recordResponse schedOnePending 5000000000 true).1.testEvents
      = [commissionResponseEvent 5000000000 1] ∧
    (recordResponse schedOnePending 5000000000 true).2 = [] := by
  have hall : ∀ pr ∈ rtOnePending.pendingResponses,
      (fun pr : PendingResponse =>
        decide (elapsedMs 5000000000 pr.onsetTimestampNs
          < rtOnePending.config.responseWindowMs)) pr = false := by
    intro pr hpr
    have : pr = pendTrial0 := by simpa [rtOnePending] using hpr
    subst this
    simp only [decide_eq_false_iff_not, not_lt]
    norm_num [elapsedMs, pendTrial0, TestConfig.responseWindowMs, rtOnePending, cfgLong]
  have hfind := (findRemoveFirst_eq_none _ rtOnePending.pendingResponses).mpr hall
  have hproc := processResponse_commission_eq rtOnePending 5000000000 true
    pendTrial0.stimulusType pendTrial0.trialIndex rfl hfind
  have heq := recordResponse_some_eq schedOnePending 5000000000 true pendTrial0
    _ _ rfl hproc
  rw [if_pos (by simp)] at heq
  refine ⟨⟨_, by rw [hproc], rfl⟩, ?_, ?_⟩
  · rw [heq]
    rfl
  · rw [heq]

/-- C9 amended: every `recordResponse` call during an active run whose
classification result is non-null appends exactly one response event to the
scheduler's event log, but only the normal (non-commission) outcome is
forwarded outward to the stimulus-change sink; the commission-error outcome
is logged without any outward notification, and the null (duplicate)
outcome produces none either. -/
theorem recordResponse_nonNull_appends (s : TrialScheduler) (ts : ℤ)
    (responded : Bool) (pending : PendingResponse) (r : ResponseResult)
    (rt' : ResponseTracker)
    (hlast : s.responseTracker.pendingResponses.getLast? = some pending)
    (hproc : s.responseTracker.processResponse ts responded
      pending.stimulusType pending.trialIndex = (some r, rt')) :
    ∃ e, (recordResponse s ts responded).1.testEvents = s.testEvents ++ [e] ∧
      e.eventType = TestEventType.response ∧
      (recordResponse s ts responded).2
        = (if r.isCommissionError then [] else [Notif.stimulusChange e]) := by
  have heq := recordResponse_some_eq s ts responded pending r rt' hlast hproc
  by_cases hc : r.isCommissionError
  · rw [if_pos hc] at heq
    refine ⟨commissionResponseEvent ts r.responseCount, ?_, rfl, ?_⟩
    · rw [heq]
      rfl
    · rw [heq, if_pos hc]
  · rw [if_neg hc] at heq
    refine ⟨validResponseEvent ts r, ?_, rfl, ?_⟩
    · rw [heq]
      rfl
    · rw [heq, if_neg hc]

/-- Witness for C9 (amended): a normal in-window response to the pending
trial 0 is appended to the log and forwarded outward. -/
theorem recordResponse_nonNull_appends_witness :
    ∃ e, (recordResponse schedOnePending 500000000 true).1.testEvents
        = schedOnePending.testEvents ++ [e] ∧
      e.eventType = TestEventType.response ∧
      (recordResponse schedOnePending 500000000 true).2
        = [Notif.stimulusChange e] := by
  have hp : (fun pr : PendingResponse =>
      decide (elapsedMs 500000000 pr.onsetTimestampNs
        < rtOnePending.config.responseWindowMs)) pendTrial0 = true := by
    simp only [decide_eq_true_eq]
    norm_num [elapsedMs, pendTrial0, TestConfig.responseWindowMs, rtOnePending, cfgLong]
  have hproc := processResponse_matched_eq rtOnePending 500000000 true
    pendTrial0.stimulusType pendTrial0.trialIndex pendTrial0 [] rfl
    (findRemoveFirst_cons_pos _ pendTrial0 [] hp)
  obtain ⟨e, h1, h2, h3⟩ := recordResponse_nonNull_appends schedOnePending
    500000000 true pendTrial0 _ _ rfl hproc
  rw [if_neg (by simp)] at h3
  exact ⟨e, h1, h2, h3⟩

/-! ### C8: sequence-length precondition at start -/

/-- C8: `TrialScheduler.start`, called while not running, raises an error
(and performs no state mutation, producing no run) for every sequence whose
length differs from `normalizeToEven(config.totalTrials)`. -/
theorem start_length_mismatch (s : TrialScheduler) (sequence : List StimulusType)
    (startTimeNs : ℤ) (clock : List ℤ)
    (hrun : s.testRunning = false)
    (hlen : sequence.length ≠ normalizeToEven s.config.totalTrials) :
    s.start sequence startTimeNs clock
      = Except.error "Sequence length does not match expected trials" := by
  unfold TrialScheduler.start
  simp [hrun, hlen]

/-- Witness for C8: starting the fresh scheduler of the odd configuration
(`totalTrials = 1`, normalized 2) with a length-1 sequence errors. -/
theorem start_length_mismatch_witness :
    schedOdd.start [StimulusType.target] 0 []
      = Except.error "Sequence length does not match expected trials" :=
  start_length_mismatch schedOdd [StimulusType.target] 0 [] rfl (by decide)

/-! ### Scheduler helper lemmas -/

theorem fireTimer_not_running (s : TrialScheduler) (cb : TimerCb) (clock : List ℤ)
    (h : s.testRunning = false) : s.fireTimer cb clock = noopOut s clock := by
  cases cb <;> simp [TrialScheduler.fireTimer, h]

theorem drive_not_running (fuel : ℕ) (s : TrialScheduler) (timers : List TimerReq)
    (clock : List ℤ) (h : s.testRunning = false) :
    drive fuel s timers clock = (s, []) := by
  induction fuel generalizing timers clock with
  | zero => simp [drive]
  | succ n ih =>
    cases timers with
    | nil => simp [drive]
    | cons t rest =>
      simp only [drive, fireTimer_not_running s t.cb clock h, noopOut]
      rw [List.append_nil, ih rest clock]
      simp

theorem countOnsets_append (l1 l2 : List TestEvent) :
    countOnsets (l1 ++ l2) = countOnsets l1 + countOnsets l2 :=
  List.countP_append _ _ _

theorem countOnsets_nil : countOnsets [] = 0 := rfl

theorem countOnsets_single_onset (i : ℤ) (st : StimulusType) (t : ℤ) :
    countOnsets [mkStimulusEvent i st TestEventType.stimulusOnset t] = 1 := rfl

theorem countOnsets_single_offset (i : ℤ) (st : StimulusType) (t : ℤ) :
    countOnsets [mkStimulusEvent i st TestEventType.stimulusOffset t] = 0 := rfl

theorem countOnsets_single_buffer (i : ℤ) (st : StimulusType) (t : ℤ) :
    countOnsets [mkStimulusEvent i st TestEventType.bufferStart t] = 0 := rfl

/-- Driving the scheduler from a registered present-stimulus timer at trial
index `i` with `i + k = totalTrials` presents exactly `k` further stimulus
onsets before completing. -/
theorem drive_onsets (k : ℕ) :
    ∀ (s : TrialScheduler) (clock : List ℤ) (d : ℚ),
    s.testRunning = true →
    s.currentTrialIndex + k = s.config.totalTrials →
    countOnsets (drive (3 * k + 1) s
      [{ delayMs := d, cb := TimerCb.presentCb }] clock).1.testEvents
      = countOnsets s.testEvents + k := by
  induction k with
  | zero =>
    intro s clock d hrun hidx
    have hge : s.currentTrialIndex ≥ s.config.totalTrials := by omega
    simp [drive, TrialScheduler.fireTimer, TrialScheduler.presentStimulus,
      TrialScheduler.complete, hrun, hge]
  | succ n ih =>
    intro s clock d hrun hidx
    have hlt : ¬ s.currentTrialIndex ≥ s.config.totalTrials := by omega
    rw [show 3 * (n + 1) + 1 = 3 * n + 1 + 1 + 1 + 1 by ring]
    by_cases hnext : s.currentTrialIndex + 1 ≥ s.config.totalTrials
    · have hn0 : n = 0 := by omega
      subst hn0
      simp [drive, TrialScheduler.fireTimer, TrialScheduler.presentStimulus,
        TrialScheduler.scheduleNextTrial, TrialScheduler.complete, hrun, hlt, hnext,
        countOnsets_append, countOnsets_single_onset, countOnsets_single_offset,
        countOnsets_nil]
      simp [countOnsets, List.countP_cons, mkStimulusEvent]
    · have hnext2 : s.currentTrialIndex + 1 + n = s.config.totalTrials := by omega
      generalize hf : 3 * n + 1 = f
      simp only [drive, List.nil_append, TrialScheduler.fireTimer,
        TrialScheduler.presentStimulus, TrialScheduler.scheduleNextTrial,
        TrialScheduler.complete, hrun, hlt, hnext, Bool.true_eq_false,
        if_false, false_or, ge_iff_le, Nat.add_one_ne_zero, ite_false, ite_true,
        eq_self_iff_true, if_true, or_false, if_neg, not_false_iff]
      rw [← hf]
      simp only [ih, hrun, hnext2, countOnsets_append, countOnsets_single_onset,
        countOnsets_single_offset, Nat.zero_add, Nat.add_zero]
      omega

/-! ### C4: stop is immediate and final -/

/-- C4: `stop()` immediately emits a `test-complete` notification carrying
exactly the events accumulated so far, registers no timers, leaves the event
log untouched, and afterwards firing any timers that were already scheduled
changes nothing and emits nothing: every deferred callback checks the
cleared running flag and becomes a no-op. -/
theorem stop_halts_schedule (s : TrialScheduler) (clock : List ℤ) (fuel : ℕ)
    (timers : List TimerReq) (clock2 : List ℤ) :
    (s.stop clock).notifs
      = [Notif.testComplete s.testEvents s.testStartTimeNs
          (clock.headD 0 - s.testStartTimeNs)] ∧
    (s.stop clock).sched.testEvents = s.testEvents ∧
    (s.stop clock).timers = [] ∧
    drive fuel (s.stop clock).sched timers clock2 = ((s.stop clock).sched, []) := by
  have hrun : (s.stop clock).sched.testRunning = false := rfl
  exact ⟨rfl, rfl, rfl, drive_not_running fuel _ timers clock2 hrun⟩

/-! ### C10: stop performs no running-state check -/

/-- C10: `TrialScheduler.stop` unconditionally invokes the test-complete
callback — for every scheduler state, started or not, already stopped or
not, each `stop()` call emits a further `test-complete` notification —
while the orchestrator-level `stopTest` is the only guard: on a non-running
scheduler it returns `false` without calling `stop()` at all. -/
theorem stop_unconditionally_completes (s : TrialScheduler) (clock : List ℤ) :
    (s.stop clock).notifs
      = [Notif.testComplete s.testEvents s.testStartTimeNs
          (clock.headD 0 - s.testStartTimeNs)] ∧
    (s.testRunning = false → stopTest (some s) clock = (false, some s, [])) := by
  refine ⟨rfl, ?_⟩
  intro h
  simp [stopTest, TrialScheduler.isRunning, h]

/-- Witness for C10: stopping the never-started `schedOdd` still emits a
`test-complete` notification, while `stopTest` on it returns `false`. -/
theorem stop_unconditionally_completes_witness :
    (TrialScheduler.stop schedOdd []).notifs
      = [Notif.testComplete schedOdd.testEvents schedOdd.testStartTimeNs
          (([] : List ℤ).headD 0 - schedOdd.testStartTimeNs)] ∧
    stopTest (some schedOdd) [] = (false, some schedOdd, []) := by
  obtain ⟨h1, h2⟩ := stop_unconditionally_completes schedOdd []
  exact ⟨h1, h2 rfl⟩

/-! ### C3: number of presented stimuli -/

/-- C3 counterexample: with the odd configuration `totalTrials = 1`, a run
started with the valid sequence of length `normalizeToEven 1 = 2` and
driven to natural completion presents only 1 stimulus onset, not 2: the
scheduler's loop bound is the raw `config.totalTrials`, not the normalized
sequence length. -/
theorem scheduler_odd_onsets_counterexample :
    (schedOdd.start [StimulusType.target, StimulusType.target] 0 []).toOption.map
      (fun out => countOnsets (drive 10 out.sched out.timers []).1.testEvents)
      = some 1 ∧
    (schedOdd.start [StimulusType.target, StimulusType.target] 0 []).toOption.map
      (fun out => (drive 10 out.sched out.timers []).1.testRunning)
      = some false ∧
    normalizeToEven schedOdd.config.totalTrials = 2 ∧ (1 : ℕ) ≠ 2 := by
  refine ⟨by decide, by decide, by decide, by decide⟩

/-- Driving a just-started scheduler (trial index 0, any trial count,
including 0) to exhaustion presents exactly `config.totalTrials` onsets. -/
theorem scheduleNextTrial_onsets (s : TrialScheduler) (clock clock2 : List ℤ)
    (hrun : s.testRunning = true) (hidx : s.currentTrialIndex = 0) :
    countOnsets (drive (3 * s.config.totalTrials + 1)
      (s.scheduleNextTrial clock).sched (s.scheduleNextTrial clock).timers
      clock2).1.testEvents
      = countOnsets s.testEvents + s.config.totalTrials := by
  by_cases hT : s.config.totalTrials = 0
  · have hge : s.currentTrialIndex ≥ s.config.totalTrials := by omega
    simp [TrialScheduler.scheduleNextTrial, TrialScheduler.complete, hrun, hge, hT,
      drive]
  · have hge0 : ¬ (0 ≥ s.config.totalTrials) := by omega
    simp only [TrialScheduler.scheduleNextTrial, hrun, hge0, hidx, Bool.true_eq_false,
      if_false, false_or, ite_true, ite_false, eq_self_iff_true, if_true]
    simp only [drive_onsets s.config.totalTrials, hrun, Nat.zero_add,
      countOnsets_append, countOnsets_single_buffer, Nat.add_zero]

/-- C3 amended: for every run started, while not running, with a valid
sequence (length `normalizeToEven(config.totalTrials)`) and driven to
natural completion, the number of stimulus-onset events in the final event
log equals the raw `config.totalTrials` — which equals
`normalizeToEven(config.totalTrials)` only when `config.totalTrials` is
even; for odd `config.totalTrials` the scheduler stops one element short of
the normalized sequence. -/
theorem scheduler_presents_totalTrials (s : TrialScheduler)
    (sequence : List StimulusType) (t0 : ℤ) (clock clock2 : List ℤ)
    (h1 : s.testRunning = false)
    (h2 : sequence.length = normalizeToEven s.config.totalTrials) :
    ∃ out, s.start sequence t0 clock = Except.ok out ∧
      countOnsets (drive (3 * s.config.totalTrials + 1) out.sched out.timers
        clock2).1.testEvents = s.config.totalTrials := by
  unfold TrialScheduler.start
  rw [if_neg (by simp [h1])]
  rw [if_neg (by simp [h2])]
  refine ⟨_, rfl, ?_⟩
  have h3 := scheduleNextTrial_onsets
    { config := s.config
      responseTracker := s.responseTracker.clear
      testRunning := true
      testEvents := []
      currentTrialIndex := 0
      currentStimulusType := StimulusType.target
      trialSequence := sequence
      testStartTimeNs := t0 } clock clock2 rfl rfl
  exact h3.trans (by simp [countOnsets_nil])

/-- Witness for C3 (amended): the even configuration `totalTrials = 2` with
a length-2 sequence presents exactly 2 onsets. -/
theorem scheduler_presents_totalTrials_witness :
    ∃ out, schedTwo.start [StimulusType.target, StimulusType.nonTarget] 0 []
        = Except.ok out ∧
      countOnsets (drive (3 * schedTwo.config.totalTrials + 1) out.sched out.timers
        []).1.testEvents = schedTwo.config.totalTrials :=
  scheduler_presents_totalTrials schedTwo [StimulusType.target, StimulusType.nonTarget]
    0 [] [] rfl (by decide)

/-! ### Shuffle permutation lemmas -/

theorem cons_set_perm {α : Type} : ∀ (t : List α) (m : ℕ) (a b : α),
    t.get? m = some b → (b :: t.set m a).Perm (a :: t) := by
  intro t
  induction t with
  | nil =>
    intro m a b h
    simp at h
  | cons c t' ih =>
    intro m a b h
    cases m with
    | zero =>
      simp only [List.get?] at h
      obtain rfl : c = b := Option.some.inj h
      exact List.Perm.swap a c t'
    | succ m' =>
      simp only [List.get?] at h
      have ihm := ih m' a b h
      exact (List.Perm.swap c b _).trans ((ihm.cons c).trans (List.Perm.swap a c t'))

theorem listSwap_perm {α : Type} : ∀ (l : List α) (i j : ℕ), (listSwap l i j).Perm l := by
  intro l
  induction l with
  | nil =>
    intro i j
    simp [listSwap]
  | cons c t ih =>
    intro i j
    cases i with
    | zero =>
      cases j with
      | zero =>
        simp [listSwap, List.set]
      | succ j' =>
        cases hj : t.get? j' with
        | none =>
          simp only [listSwap, List.get?, hj]
          exact List.Perm.refl _
        | some b =>
          simp only [listSwap, List.get?, hj, List.set]
          exact cons_set_perm t j' c b hj
    | succ i' =>
      cases j with
      | zero =>
        cases hi : t.get? i' with
        | none =>
          simp only [listSwap, List.get?, hi]
          exact List.Perm.refl _
        | some b =>
          simp only [listSwap, List.get?, hi, List.set]
          exact cons_set_perm t i' c b hi
      | succ j' =>
        cases hi : t.get? i' with
        | none =>
          simp only [listSwap, List.get?, hi]
          exact List.Perm.refl _
        | some a' =>
          cases hj : t.get? j' with
          | none =>
            simp only [listSwap, List.get?, hi, hj]
            exact List.Perm.refl _
          | some b' =>
            simp only [listSwap, List.get?, hi, hj, List.set]
            have h2 := ih i' j'
            simp only [listSwap, hi, hj] at h2
            exact h2.cons c

theorem shuffleSteps_perm {α : Type} (rand : ℕ → ℕ) :
    ∀ (n : ℕ) (l : List α), (shuffleSteps rand n l).Perm l := by
  intro n
  induction n with
  | zero =>
    intro l
    simp [shuffleSteps]
  | succ m ih =>
    intro l
    exact (ih _).trans (listSwap_perm l (m + 1) (rand (m + 1) % (m + 2)))

theorem shuffleArray_perm {α : Type} (l : List α) (rand : ℕ → ℕ) :
    (shuffleArray l rand).Perm l :=
  shuffleSteps_perm rand (l.length - 1) l

/-- Bound `round(h * r) ≤ h` for a ratio `r ≤ 1`. -/
theorem mathRound_ratio_le (h : ℕ) (r : ℚ) (h1 : r ≤ 1) :
    (mathRound ((h : ℚ) * r)).toNat ≤ h := by
  have hle : (h : ℚ) * r + 1 / 2 ≤ (h : ℚ) + 1 / 2 := by
    have := mul_le_of_le_one_right (by positivity : (0 : ℚ) ≤ (h : ℚ)) h1
    linarith
  have hfl : ⌊(h : ℚ) * r + 1 / 2⌋ ≤ ⌊(h : ℚ) + 1 / 2⌋ := Int.floor_le_floor hle
  have hInt : ⌊(h : ℚ) + 1 / 2⌋ = (h : ℤ) := by
    rw [show ((h : ℚ) : ℚ) = (((h : ℤ) : ℤ) : ℚ) by push_cast; ring]
    rw [Int.floor_int_add]
    norm_num
  rw [mathRound]
  omega

/-! ### C6: two-half ratio sequence generation -/

/-- C6: for every positive `N` and every pair of random streams,
`generateTrialSequence` returns a sequence of length `normalizeToEven N`
(odd `N` rounded up by exactly 1) that is the concatenation of a first half
containing exactly `round(half × 0.225)` targets (the remainder
non-targets) and a second half containing exactly `round(half × 0.775)`
targets (the remainder non-targets), where `half = normalizeToEven N / 2`. -/
theorem generateTrialSequence_spec (N : ℕ) (rand1 rand2 : ℕ → ℕ) (hN : 0 < N) :
    ∃ seq firstHalf secondHalf,
      generateTrialSequence N rand1 rand2 = Except.ok seq ∧
      seq.length = normalizeToEven N ∧
      normalizeToEven N = (if N % 2 = 0 then N else N + 1) ∧
      seq = firstHalf ++ secondHalf ∧
      firstHalf.length = normalizeToEven N / 2 ∧
      secondHalf.length = normalizeToEven N / 2 ∧
      firstHalf.count StimulusType.target
        = (mathRound (((normalizeToEven N / 2 : ℕ) : ℚ) * (225 / 1000))).toNat ∧
      firstHalf.count StimulusType.nonTarget
        = normalizeToEven N / 2 - firstHalf.count StimulusType.target ∧
      secondHalf.count StimulusType.target
        = (mathRound (((normalizeToEven N / 2 : ℕ) : ℚ) * (775 / 1000))).toNat ∧
      secondHalf.count StimulusType.nonTarget
        = normalizeToEven N / 2 - secondHalf.count StimulusType.target := by
  have hne : ¬ N = 0 := by omega
  have hle1 : (mathRound (((normalizeToEven N / 2 : ℕ) : ℚ) * (225 / 1000))).toNat
      ≤ normalizeToEven N / 2 :=
    mathRound_ratio_le _ _ (by norm_num)
  have hle2 : (mathRound (((normalizeToEven N / 2 : ℕ) : ℚ) * (775 / 1000))).toNat
      ≤ normalizeToEven N / 2 :=
    mathRound_ratio_le _ _ (by norm_num)
  have heven : normalizeToEven N % 2 = 0 := by
    unfold normalizeToEven
    split <;> omega
  have hcount1 := (shuffleArray_perm
    (List.replicate (mathRound (((normalizeToEven N / 2 : ℕ) : ℚ) * (225 / 1000))).toNat
        StimulusType.target ++
      List.replicate
        (normalizeToEven N / 2 -
          (mathRound (((normalizeToEven N / 2 : ℕ) : ℚ) * (225 / 1000))).toNat)
        StimulusType.nonTarget) rand1)
  have hcount2 := (shuffleArray_perm
    (List.replicate (mathRound (((normalizeToEven N / 2 : ℕ) : ℚ) * (775 / 1000))).toNat
        StimulusType.target ++
      List.replicate
        (normalizeToEven N / 2 -
          (mathRound (((normalizeToEven N / 2 : ℕ) : ℚ) * (775 / 1000))).toNat)
        StimulusType.nonTarget) rand2)
  unfold generateTrialSequence
  rw [if_neg hne]
  refine ⟨_, _, _, rfl, ?_, by unfold normalizeToEven; split <;> simp_all, rfl,
    ?_, ?_, ?_, ?_, ?_, ?_⟩
  · rw [List.length_append, hcount1.length_eq, hcount2.length_eq]
    simp only [List.length_append, List.length_replicate]
    omega
  · rw [hcount1.length_eq]
    simp only [List.length_append, List.length_replicate]
    omega
  · rw [hcount2.length_eq]
    simp only [List.length_append, List.length_replicate]
    omega
  · rw [hcount1.count_eq]
    simp [List.count_append, List.count_replicate_self, List.count_replicate]
  · rw [hcount1.count_eq, hcount1.count_eq]
    simp [List.count_append, List.count_replicate_self, List.count_replicate]
  · rw [hcount2.count_eq]
    simp [List.count_append, List.count_replicate_self, List.count_replicate]
  · rw [hcount2.count_eq, hcount2.count_eq]
    simp [List.count_append, List.count_replicate_self, List.count_replicate]

/-- Witness for C6: the theorem instantiated at `N = 5` (odd, normalized to
6) with the constant-zero random streams. -/
theorem generateTrialSequence_spec_witness :
    ∃ seq firstHalf secondHalf,
      generateTrialSequence 5 (fun _ => 0) (fun _ => 0) = Except.ok seq ∧
      seq.length = normalizeToEven 5 ∧
      normalizeToEven 5 = (if 5 % 2 = 0 then 5 else 5 + 1) ∧
      seq = firstHalf ++ secondHalf ∧
      firstHalf.length = normalizeToEven 5 / 2 ∧
      secondHalf.length = normalizeToEven 5 / 2 ∧
      firstHalf.count StimulusType.target
        = (mathRound (((normalizeToEven 5 / 2 : ℕ) : ℚ) * (225 / 1000))).toNat ∧
      firstHalf.count StimulusType.nonTarget
        = normalizeToEven 5 / 2 - firstHalf.count StimulusType.target ∧
      secondHalf.count StimulusType.target
        = (mathRound (((normalizeToEven 5 / 2 : ℕ) : ℚ) * (775 / 1000))).toNat ∧
      secondHalf.count StimulusType.nonTarget
        = normalizeToEven 5 / 2 - secondHalf.count StimulusType.target :=
  generateTrialSequence_spec 5 (fun _ => 0) (fun _ => 0) (by norm_num)

end Tova
